import Mathlib

/-!
Shallow embedding of `src/main.rs` of aws-ecr-scan-detail, a reporting tool
that lists ECR images and their vulnerability-scan summaries as
semicolon-separated lines.

The AWS SDK types are modelled by the fields the program consumes:
timestamps (`aws_sdk_ecr::primitives::DateTime`, constructed in the program
only via `from_secs`) are modelled as integer epoch seconds, and the
severity-count `HashMap` as an association list with at most one entry per
key (lookups take the first match, as a map with unique keys behaves).
Printing is modelled by returning the lists of lines written to standard
output and standard error together with the exit status.
-/

namespace EcrScanDetail

/-- The severity enumeration `aws_sdk_ecr::types::FindingSeverity`,
restricted to the six variants the program reads. -/
inductive FindingSeverity where
  | Critical
  | High
  | Medium
  | Low
  | Informational
  | Undefined
deriving DecidableEq, BEq, Repr

/-- The scan-findings summary attached to an image
(`ImageScanFindingsSummary` in the SDK), with the three fields the program
consumes.  Timestamps are epoch seconds; counts are the SDK's `i64`. -/
structure ImageScanFindingsSummary where
  image_scan_completed_at : Option Int
  vulnerability_source_updated_at : Option Int
  finding_severity_counts : Option (List (FindingSeverity × Int))
deriving DecidableEq, Repr

/-- One image record (`ImageDetail` in the SDK), with the five fields the
program consumes. -/
structure ImageDetail where
  artifact_media_type : Option String
  repository_name : Option String
  image_tags : Option (List String)
  image_digest : Option String
  image_scan_findings_summary : Option ImageScanFindingsSummary
deriving DecidableEq, Repr

/-- One repository record (`Repository` in the SDK); only the name is
consumed. -/
structure Repository where
  repository_name : Option String
deriving DecidableEq, Repr

/-- Two digits with a leading zero, as the ISO-8601 renderer writes date and
time components. -/
def pad2 (n : Nat) : String :=
  if n < 10 then "0" ++ toString n else toString n

/-- Four digits with leading zeros for the year component. -/
def pad4 (n : Nat) : String :=
  if n < 10 then "000" ++ toString n
  else if n < 100 then "00" ++ toString n
  else if n < 1000 then "0" ++ toString n
  else toString n

/-- Civil date (year, month, day) of a day count since 1970-01-01, for
nonnegative day counts (proleptic Gregorian calendar). -/
def civilFromDays (z : Nat) : Nat × Nat × Nat :=
  let z := z + 719468
  let era := z / 146097
  let doe := z % 146097
  let yoe := (doe - doe / 1460 + doe / 36524 - doe / 146096) / 365
  let y := yoe + era * 400
  let doy := doe - (365 * yoe + yoe / 4 - yoe / 100)
  let mp := (5 * doy + 2) / 153
  let d := doy - (153 * mp + 2) / 5 + 1
  let m := if mp < 10 then mp + 3 else mp - 9
  (if m ≤ 2 then y + 1 else y, m, d)

/-- Model of `DateTime::fmt(DateTimeFormat::DateTime)` from the AWS SDK: the
ISO-8601 rendering `YYYY-MM-DDThh:mm:ssZ` of a timestamp in whole epoch
seconds.  The renderer fails (returns an error, modelled as `none`) outside
the representable range; the program never constructs negative timestamps
itself, and no claim depends on pre-1970 rendering, so the model returns
`none` there as well. -/
def fmtDateTime (secs : Int) : Option String :=
  if secs < 0 ∨ 253402300799 < secs then none
  else
    let s := secs.toNat
    let days := s / 86400
    let rem := s % 86400
    let ymd := civilFromDays days
    some (pad4 ymd.1 ++ "-" ++ pad2 ymd.2.1 ++ "-" ++ pad2 ymd.2.2 ++ "T" ++
      pad2 (rem / 3600) ++ ":" ++ pad2 (rem % 3600 / 60) ++ ":" ++
      pad2 (rem % 60) ++ "Z")

/-- The media-type literal the program compares against
(`src/main.rs` line 62). -/
def dockerMediaType : String := "application/vnd.docker.container.image.v1+json"

/-- `severity_map.get(sev).unwrap_or(&0)`: association-list lookup with
default 0. -/
def severityCount (m : List (FindingSeverity × Int)) (sev : FindingSeverity) : Int :=
  (m.lookup sev).getD 0

/-- The one output line produced for an image by the loop body of
`list_images_in_repository` (`src/main.rs` lines 60-106), or `none` when
the image is skipped.  The `print!` of the basic information and the
`println!` of the scan part concatenate into a single output line. -/
def formatRow (image_detail : ImageDetail) : Option String :=
  match image_detail.artifact_media_type with
  | none => none
  | some media_type =>
    if media_type = dockerMediaType then
      let repository_name := image_detail.repository_name.getD ""
      let image_tag := image_detail.image_tags.getD []
      let image_digest := image_detail.image_digest.getD ""
      let base := repository_name ++ ";" ++ (image_tag.head?.getD "") ++ ";" ++
        image_digest
      match image_detail.image_scan_findings_summary with
      | some findings =>
        let scan_complete_date := findings.image_scan_completed_at.getD 0
        let update_scan_date := findings.vulnerability_source_updated_at.getD 0
        let severity_map := findings.finding_severity_counts.getD []
        some (base ++ ";" ++ (fmtDateTime scan_complete_date).getD "" ++ ";" ++
          (fmtDateTime update_scan_date).getD "" ++ ";" ++
          toString (severityCount severity_map .Critical) ++ ";" ++
          toString (severityCount severity_map .High) ++ ";" ++
          toString (severityCount severity_map .Medium) ++ ";" ++
          toString (severityCount severity_map .Low) ++ ";" ++
          toString (severityCount severity_map .Informational) ++ ";" ++
          toString (severityCount severity_map .Undefined))
      | none =>
        some (base ++ ";;;0;0;0;0;0;0")
    else none

/-- The registry as seen through the two read-only API calls the client
issues.  `Except String` models the SDK result type, carrying the rendered
error message. -/
structure Registry where
  describe_repositories : Except String (List Repository)
  describe_images : String → Except String (List ImageDetail)

/-- `list_images_in_repository` (`src/main.rs` lines 47-110): the lines it
prints to standard output, or the propagated API error. -/
def list_images_in_repository (reg : Registry) (repository_name : String) :
    Except String (List String) :=
  match reg.describe_images repository_name with
  | .error e => .error e
  | .ok image_details => .ok (image_details.filterMap formatRow)

/-- Outcome of a run or of a sub-routine that prints: lines written to
standard output, lines written to standard error, and whether the process
result is `Ok` (exit status zero). -/
structure RunResult where
  stdout : List String
  stderr : List String
  exitOk : Bool
deriving DecidableEq, Repr

/-- The repository loop of `list_all_repositories` (`src/main.rs` lines
19-40): repositories are processed in order; a missing name is reported and
skipped; a failing `list_images_in_repository` call is reported and aborts
the loop with an error, leaving the lines already printed on standard
output.  The failure diagnostic is modelled without the quote characters
the source puts around the repository name; no property here depends on
the exact diagnostic text. -/
def listAllLoop (reg : Registry) : List Repository →
    List String × List String × Except String Unit
  | [] => ([], [], .ok ())
  | repo :: rest =>
    match repo.repository_name with
    | none =>
      let r := listAllLoop reg rest
      (r.1, "Repository name not found" :: r.2.1, r.2.2)
    | some repository_name =>
      match list_images_in_repository reg repository_name with
      | .ok rows =>
        let r := listAllLoop reg rest
        (rows ++ r.1, r.2.1, r.2.2)
      | .error e =>
        ([], ["Error listing images for repository " ++ repository_name ++
          ": " ++ e], .error e)

/-- `list_all_repositories` (`src/main.rs` lines 6-43). -/
def list_all_repositories (reg : Registry) :
    List String × List String × Except String Unit :=
  match reg.describe_repositories with
  | .error e => ([], ["Error describing repositories: " ++ e], .error e)
  | .ok repositories => listAllLoop reg repositories

/-- `option_env!("CARGO_PKG_VERSION")`: the package version baked in at
compile time.  The manifest is not part of the sources; the program falls
back to `"unknown"` when the variable is absent, and no claim depends on
the concrete value. -/
def cargoPkgVersion : Option String := none

/-- The fixed header line printed by `main` (`src/main.rs` lines 144-146). -/
def headerLine : String :=
  "repository_name;image_tags;image_digest;image_scan_completed_date;vulnerability_source_updated_date;Critical;High;Medium;Low;Informational;Undefined"

/-- The usage message printed on insufficient arguments
(`src/main.rs` line 137). -/
def usageLine (arg0 : String) : String :=
  "Usage: " ++ arg0 ++ " [--all | <repository_name> | --version]"

/-- The version message printed by the `--version` path
(`src/main.rs` line 126). -/
def versionLine (arg0 : String) : String :=
  arg0 ++ " version v" ++ cargoPkgVersion.getD "unknown"

/-- `main` (`src/main.rs` lines 114-169) on a given registry and argument
vector.  `args` is the full `env::args()` vector, whose first element is
the program name.  `--version` and `--all` are detected by `contains` over
the whole vector, exactly as the source does.  As in `listAllLoop`, the
image-listing failure diagnostic omits the quote characters the source
puts around the repository name; no property depends on that text. -/
def main (reg : Registry) (args : List String) : RunResult :=
  if args.contains "--version" then
    { stdout := [], stderr := [versionLine (args.headD "")], exitOk := true }
  else
    let process_all := args.contains "--all"
    if process_all then
      let r := list_all_repositories reg
      match r.2.2 with
      | .ok _ =>
        { stdout := headerLine :: r.1, stderr := r.2.1, exitOk := true }
      | .error e =>
        { stdout := headerLine :: r.1,
          stderr := r.2.1 ++ ["Error listing all repositories: " ++ e],
          exitOk := false }
    else if args.length < 2 then
      { stdout := [], stderr := [usageLine (args.headD "")], exitOk := true }
    else
      let repo := args.getD 1 ""
      match list_images_in_repository reg repo with
      | .ok rows =>
        { stdout := headerLine :: rows, stderr := [], exitOk := true }
      | .error e =>
        { stdout := [headerLine],
          stderr := ["Error listing images for repository " ++ repo ++ ": " ++ e],
          exitOk := false }

/-- Whether processing one repository inside the loop of
`list_all_repositories` neither skips with a missing name nor fails: the
name is present and the image-listing call succeeds. -/
def repoOkB (reg : Registry) (r : Repository) : Bool :=
  match r.repository_name with
  | none => true
  | some n =>
    match list_images_in_repository reg n with
    | .ok _ => true
    | .error _ => false

/-- The standard-output lines one repository contributes in the loop of
`list_all_repositories` when it does not abort the run. -/
def repoRows (reg : Registry) (r : Repository) : List String :=
  match r.repository_name with
  | none => []
  | some n =>
    match list_images_in_repository reg n with
    | .ok rows => rows
    | .error _ => []

/-- The diagnostic lines one repository contributes in the loop of
`list_all_repositories` when it does not abort the run. -/
def repoErrs (r : Repository) : List String :=
  match r.repository_name with
  | none => ["Repository name not found"]
  | some _ => []

end EcrScanDetail

namespace EcrScanDetail

/-- C1: an output row is emitted for an ImageDescription exactly when its
artifactMediaType is present and equals the literal Docker v1
container-image media type; when it is absent or any other string, no row
is produced, regardless of all other fields. -/
theorem C1_row_iff_docker_media_type (d : ImageDetail) :
    (formatRow d).isSome = true ↔
      d.artifact_media_type = some dockerMediaType := by
  rcases d with ⟨amt, rn, tags, dig, sfs⟩
  cases amt with
  | none => simp [formatRow]
  | some m =>
    by_cases hm : m = dockerMediaType
    · subst hm
      cases sfs <;> simp [formatRow]
    · simp [formatRow, hm]

/-- C2: for an ImageDescription with the Docker v1 media type and no
scan-findings summary, the emitted row is the three basic fields followed by
the literal suffix `;;;0;0;0;0;0;0` — two empty timestamp fields and six
zero severity counts after the digest. -/
theorem C2_absent_summary_row (d : ImageDetail)
    (hm : d.artifact_media_type = some dockerMediaType)
    (hs : d.image_scan_findings_summary = none) :
    formatRow d = some (d.repository_name.getD "" ++ ";" ++
      ((d.image_tags.getD []).head?.getD "") ++ ";" ++
      d.image_digest.getD "" ++ ";;;0;0;0;0;0;0") := by
  rcases d with ⟨amt, rn, tags, dig, sfs⟩
  dsimp only at hm hs ⊢
  subst hm
  subst hs
  simp [formatRow]

theorem C2_absent_summary_row_witness :
    formatRow { artifact_media_type := some dockerMediaType,
                repository_name := some "r",
                image_tags := some ["v1", "v2"],
                image_digest := some "sha",
                image_scan_findings_summary := none } =
      some "r;v1;sha;;;0;0;0;0;0;0" := by
  have h := C2_absent_summary_row
    { artifact_media_type := some dockerMediaType,
      repository_name := some "r",
      image_tags := some ["v1", "v2"],
      image_digest := some "sha",
      image_scan_findings_summary := none } rfl rfl
  exact h.trans (by decide)

/-- C3: for an ImageDescription with the Docker v1 media type whose scan
summary is present, an absent individual timestamp — whether it is
image_scan_completed_at or vulnerability_source_updated_at — is replaced by
the epoch instant (seconds = 0) before formatting, so the corresponding
field of the row is the non-empty formatted epoch date, never an empty
string. -/
theorem C3_absent_timestamp_epoch (d : ImageDetail)
    (findings : ImageScanFindingsSummary)
    (hm : d.artifact_media_type = some dockerMediaType)
    (hs : d.image_scan_findings_summary = some findings) :
    fmtDateTime 0 = some "1970-01-01T00:00:00Z" ∧
    "1970-01-01T00:00:00Z" ≠ "" ∧
    (findings.image_scan_completed_at = none →
      formatRow d = some (d.repository_name.getD "" ++ ";" ++
        ((d.image_tags.getD []).head?.getD "") ++ ";" ++
        d.image_digest.getD "" ++ ";" ++ "1970-01-01T00:00:00Z" ++ ";" ++
        ((fmtDateTime (findings.vulnerability_source_updated_at.getD 0)).getD "")
        ++ ";" ++
        toString (severityCount (findings.finding_severity_counts.getD [])
          .Critical) ++ ";" ++
        toString (severityCount (findings.finding_severity_counts.getD [])
          .High) ++ ";" ++
        toString (severityCount (findings.finding_severity_counts.getD [])
          .Medium) ++ ";" ++
        toString (severityCount (findings.finding_severity_counts.getD [])
          .Low) ++ ";" ++
        toString (severityCount (findings.finding_severity_counts.getD [])
          .Informational) ++ ";" ++
        toString (severityCount (findings.finding_severity_counts.getD [])
          .Undefined))) ∧
    (findings.vulnerability_source_updated_at = none →
      formatRow d = some (d.repository_name.getD "" ++ ";" ++
        ((d.image_tags.getD []).head?.getD "") ++ ";" ++
        d.image_digest.getD "" ++ ";" ++
        ((fmtDateTime (findings.image_scan_completed_at.getD 0)).getD "")
        ++ ";" ++ "1970-01-01T00:00:00Z" ++ ";" ++
        toString (severityCount (findings.finding_severity_counts.getD [])
          .Critical) ++ ";" ++
        toString (severityCount (findings.finding_severity_counts.getD [])
          .High) ++ ";" ++
        toString (severityCount (findings.finding_severity_counts.getD [])
          .Medium) ++ ";" ++
        toString (severityCount (findings.finding_severity_counts.getD [])
          .Low) ++ ";" ++
        toString (severityCount (findings.finding_severity_counts.getD [])
          .Informational) ++ ";" ++
        toString (severityCount (findings.finding_severity_counts.getD [])
          .Undefined))) := by
  have hepoch : fmtDateTime 0 = some "1970-01-01T00:00:00Z" := by decide
  refine ⟨hepoch, by decide, ?_, ?_⟩
  · intro hc
    rcases d with ⟨amt, rn, tags, dig, sfs⟩
    dsimp only at hm hs ⊢
    subst hm
    subst hs
    simp [formatRow, hc, hepoch]
  · intro hu
    rcases d with ⟨amt, rn, tags, dig, sfs⟩
    dsimp only at hm hs ⊢
    subst hm
    subst hs
    simp [formatRow, hu, hepoch]

theorem C3_absent_timestamp_epoch_witness :
    formatRow { artifact_media_type := some dockerMediaType,
                repository_name := some "r",
                image_tags := some ["v1"],
                image_digest := some "sha",
                image_scan_findings_summary := some
                  { image_scan_completed_at := none,
                    vulnerability_source_updated_at := some 1700000000,
                    finding_severity_counts := some [(.Critical, 2)] } } =
      some "r;v1;sha;1970-01-01T00:00:00Z;2023-11-14T22:13:20Z;2;0;0;0;0;0" ∧
    formatRow { artifact_media_type := some dockerMediaType,
                repository_name := some "r",
                image_tags := some ["v1"],
                image_digest := some "sha",
                image_scan_findings_summary := some
                  { image_scan_completed_at := some 1700000000,
                    vulnerability_source_updated_at := none,
                    finding_severity_counts := some [(.Critical, 2)] } } =
      some "r;v1;sha;2023-11-14T22:13:20Z;1970-01-01T00:00:00Z;2;0;0;0;0;0" := by
  have h1 := C3_absent_timestamp_epoch
    { artifact_media_type := some dockerMediaType,
      repository_name := some "r",
      image_tags := some ["v1"],
      image_digest := some "sha",
      image_scan_findings_summary := some
        { image_scan_completed_at := none,
          vulnerability_source_updated_at := some 1700000000,
          finding_severity_counts := some [(.Critical, 2)] } }
    { image_scan_completed_at := none,
      vulnerability_source_updated_at := some 1700000000,
      finding_severity_counts := some [(.Critical, 2)] } rfl rfl
  have h2 := C3_absent_timestamp_epoch
    { artifact_media_type := some dockerMediaType,
      repository_name := some "r",
      image_tags := some ["v1"],
      image_digest := some "sha",
      image_scan_findings_summary := some
        { image_scan_completed_at := some 1700000000,
          vulnerability_source_updated_at := none,
          finding_severity_counts := some [(.Critical, 2)] } }
    { image_scan_completed_at := some 1700000000,
      vulnerability_source_updated_at := none,
      finding_severity_counts := some [(.Critical, 2)] } rfl rfl
  exact ⟨(h1.2.2.1 rfl).trans (by decide), (h2.2.2.2 rfl).trans (by decide)⟩

/-- C4: for an ImageDescription with the Docker v1 media type and a present
scan summary holding a severity-count mapping, the six counts are emitted in
the fixed order Critical, High, Medium, Low, Informational, Undefined, each
defaulting to 0 when absent from the mapping. -/
theorem C4_severity_counts_order (d : ImageDetail)
    (findings : ImageScanFindingsSummary)
    (m : List (FindingSeverity × Int))
    (hm : d.artifact_media_type = some dockerMediaType)
    (hs : d.image_scan_findings_summary = some findings)
    (hmap : findings.finding_severity_counts = some m) :
    formatRow d = some (d.repository_name.getD "" ++ ";" ++
      ((d.image_tags.getD []).head?.getD "") ++ ";" ++
      d.image_digest.getD "" ++ ";" ++
      ((fmtDateTime (findings.image_scan_completed_at.getD 0)).getD "")
      ++ ";" ++
      ((fmtDateTime (findings.vulnerability_source_updated_at.getD 0)).getD "")
      ++ ";" ++
      toString ((m.lookup .Critical).getD 0) ++ ";" ++
      toString ((m.lookup .High).getD 0) ++ ";" ++
      toString ((m.lookup .Medium).getD 0) ++ ";" ++
      toString ((m.lookup .Low).getD 0) ++ ";" ++
      toString ((m.lookup .Informational).getD 0) ++ ";" ++
      toString ((m.lookup .Undefined).getD 0)) := by
  rcases d with ⟨amt, rn, tags, dig, sfs⟩
  dsimp only at hm hs ⊢
  subst hm
  subst hs
  simp [formatRow, hmap, severityCount]

theorem C4_severity_counts_order_witness :
    formatRow { artifact_media_type := some dockerMediaType,
                repository_name := some "r",
                image_tags := some ["v1"],
                image_digest := some "sha",
                image_scan_findings_summary := some
                  { image_scan_completed_at := some 0,
                    vulnerability_source_updated_at := some 0,
                    finding_severity_counts := some
                      [(.Critical, 3), (.High, 1)] } } =
      some "r;v1;sha;1970-01-01T00:00:00Z;1970-01-01T00:00:00Z;3;1;0;0;0;0" := by
  have h := C4_severity_counts_order
    { artifact_media_type := some dockerMediaType,
      repository_name := some "r",
      image_tags := some ["v1"],
      image_digest := some "sha",
      image_scan_findings_summary := some
        { image_scan_completed_at := some 0,
          vulnerability_source_updated_at := some 0,
          finding_severity_counts := some [(.Critical, 3), (.High, 1)] } }
    { image_scan_completed_at := some 0,
      vulnerability_source_updated_at := some 0,
      finding_severity_counts := some [(.Critical, 3), (.High, 1)] }
    [(.Critical, 3), (.High, 1)] rfl rfl rfl
  exact h.trans (by decide)

/-- C5: in every emitted row the tag field is the first element of the
imageTags sequence when it is non-empty and the empty string when it is
empty or absent; and all tags after the first are discarded: the whole row
is unchanged when the tag list is replaced by just its first element. -/
theorem C5_first_tag_only (d : ImageDetail)
    (hm : d.artifact_media_type = some dockerMediaType) :
    (∃ rest, formatRow d = some (d.repository_name.getD "" ++ ";" ++
      (match d.image_tags with
        | some (t :: _) => t
        | some [] => ""
        | none => "") ++ ";" ++ rest)) ∧
    ∀ t ts, formatRow { d with image_tags := some (t :: ts) } =
      formatRow { d with image_tags := some [t] } := by
  constructor
  · rcases d with ⟨amt, rn, tags, dig, sfs⟩
    dsimp only at hm ⊢
    subst hm
    have htag : (match tags with
        | some (t :: _) => t
        | some [] => ""
        | none => "") = ((tags.getD []).head?.getD "") := by
      cases tags with
      | none => rfl
      | some l => cases l <;> rfl
    rw [htag]
    cases sfs with
    | none =>
      exact ⟨dig.getD "" ++ ";;;0;0;0;0;0;0",
        by simp [formatRow, String.append_assoc]⟩
    | some findings =>
      exact ⟨dig.getD "" ++ ";" ++
        ((fmtDateTime (findings.image_scan_completed_at.getD 0)).getD "")
        ++ ";" ++
        ((fmtDateTime (findings.vulnerability_source_updated_at.getD 0)).getD "")
        ++ ";" ++
        toString (severityCount (findings.finding_severity_counts.getD [])
          .Critical) ++ ";" ++
        toString (severityCount (findings.finding_severity_counts.getD [])
          .High) ++ ";" ++
        toString (severityCount (findings.finding_severity_counts.getD [])
          .Medium) ++ ";" ++
        toString (severityCount (findings.finding_severity_counts.getD [])
          .Low) ++ ";" ++
        toString (severityCount (findings.finding_severity_counts.getD [])
          .Informational) ++ ";" ++
        toString (severityCount (findings.finding_severity_counts.getD [])
          .Undefined),
        by simp [formatRow, String.append_assoc]⟩
  · intro t ts
    rcases d with ⟨amt, rn, tags, dig, sfs⟩
    dsimp only at hm ⊢
    subst hm
    cases sfs <;> simp [formatRow]

theorem C5_first_tag_only_witness :
    formatRow { artifact_media_type := some dockerMediaType,
                repository_name := some "r",
                image_tags := some ["v1", "v2", "v3"],
                image_digest := some "sha",
                image_scan_findings_summary := none } =
      formatRow { artifact_media_type := some dockerMediaType,
                  repository_name := some "r",
                  image_tags := some ["v1"],
                  image_digest := some "sha",
                  image_scan_findings_summary := none } ∧
    formatRow { artifact_media_type := some dockerMediaType,
                repository_name := some "r",
                image_tags := some ["v1", "v2", "v3"],
                image_digest := some "sha",
                image_scan_findings_summary := none } =
      some "r;v1;sha;;;0;0;0;0;0;0" := by
  have h := C5_first_tag_only
    { artifact_media_type := some dockerMediaType,
      repository_name := some "r",
      image_tags := some ["v1", "v2", "v3"],
      image_digest := some "sha",
      image_scan_findings_summary := none } rfl
  exact ⟨h.2 "v1" ["v2", "v3"], by decide⟩

end EcrScanDetail

namespace EcrScanDetail

/-- C6 fails on the code: `--all` (like `--version`) is detected by
`contains` over the whole argument vector, not only in the first position.
Here the first argument is the repository name `myrepo`, which single-repo
mode would report with one data row, yet because `--all` appears later the
program lists all repositories (an empty registry) and prints no data row
for `myrepo` at all. -/
theorem C6_counterexample :
    list_images_in_repository
      { describe_repositories := .ok [],
        describe_images := fun n => .ok
          [{ artifact_media_type := some dockerMediaType,
             repository_name := some n,
             image_tags := some ["v1"],
             image_digest := some "d",
             image_scan_findings_summary := none }] } "myrepo" =
      .ok ["myrepo;v1;d;;;0;0;0;0;0;0"] ∧
    main
      { describe_repositories := .ok [],
        describe_images := fun n => .ok
          [{ artifact_media_type := some dockerMediaType,
             repository_name := some n,
             image_tags := some ["v1"],
             image_digest := some "d",
             image_scan_findings_summary := none }] }
      ["prog", "myrepo", "--all"] =
      { stdout := [headerLine], stderr := [], exitOk := true } :=
  ⟨rfl, rfl⟩

/-- C6, amended: when neither `--all` nor `--version` occurs anywhere in
the argument vector and a first argument is present, the program runs in
single-repository mode on the repository named by the first argument, and
its outcome never depends on the repository-listing call. -/
theorem C6_amended_single_repo (reg : Registry) (prog arg1 : String)
    (rest : List String)
    (hv : (prog :: arg1 :: rest).contains "--version" = false)
    (ha : (prog :: arg1 :: rest).contains "--all" = false) :
    (main reg (prog :: arg1 :: rest) =
      match list_images_in_repository reg arg1 with
      | .ok rows =>
        { stdout := headerLine :: rows, stderr := [], exitOk := true }
      | .error e =>
        { stdout := [headerLine],
          stderr := ["Error listing images for repository " ++ arg1 ++
            ": " ++ e],
          exitOk := false }) ∧
    ∀ repoList : Except String (List Repository),
      main { describe_repositories := repoList,
             describe_images := reg.describe_images } (prog :: arg1 :: rest) =
        main reg (prog :: arg1 :: rest) := by
  have key : ∀ r : Registry, r.describe_images = reg.describe_images →
      main r (prog :: arg1 :: rest) =
        match list_images_in_repository reg arg1 with
        | .ok rows =>
          { stdout := headerLine :: rows, stderr := [], exitOk := true }
        | .error e =>
          { stdout := [headerLine],
            stderr := ["Error listing images for repository " ++ arg1 ++
              ": " ++ e],
            exitOk := false } := by
    intro r hr
    have hlen : ¬ ((prog :: arg1 :: rest).length < 2) := by
      simp only [List.length_cons]
      omega
    simp only [main, hv, ha, Bool.false_eq_true, if_false, hlen,
      List.getD_cons_succ, List.getD_cons_zero, list_images_in_repository, hr]
  refine ⟨key reg rfl, fun repoList => ?_⟩
  exact (key
    { describe_repositories := repoList,
      describe_images := reg.describe_images } rfl).trans (key reg rfl).symm

theorem C6_amended_single_repo_witness :
    main
      { describe_repositories := .error "unreachable",
        describe_images := fun n => .ok
          [{ artifact_media_type := some dockerMediaType,
             repository_name := some n,
             image_tags := some ["v1"],
             image_digest := some "d",
             image_scan_findings_summary := none }] }
      ["prog", "myrepo"] =
      { stdout := [headerLine, "myrepo;v1;d;;;0;0;0;0;0;0"],
        stderr := [], exitOk := true } := by
  have h := (C6_amended_single_repo
    { describe_repositories := .error "unreachable",
      describe_images := fun n => .ok
        [{ artifact_media_type := some dockerMediaType,
           repository_name := some n,
           image_tags := some ["v1"],
           image_digest := some "d",
           image_scan_findings_summary := none }] }
    "prog" "myrepo" [] rfl rfl).1
  exact h.trans (by decide)

end EcrScanDetail

namespace EcrScanDetail

/-- In the loop of `list_all_repositories`, once a repository with a present
name fails its image-listing call, the loop returns the rows of the
successfully processed repositories before it, the diagnostics so far plus
the failure diagnostic, and the error — nothing of the repositories after
the failing one. -/
theorem listAllLoop_abort (reg : Registry) (r : Repository) (name e : String)
    (post : List Repository) (hname : r.repository_name = some name)
    (hfail : list_images_in_repository reg name = .error e) :
    ∀ pre : List Repository, (∀ x ∈ pre, repoOkB reg x = true) →
      listAllLoop reg (pre ++ r :: post) =
        (pre.flatMap (repoRows reg),
         pre.flatMap repoErrs ++
           ["Error listing images for repository " ++ name ++ ": " ++ e],
         .error e) := by
  intro pre
  induction pre with
  | nil =>
    intro _
    simp [listAllLoop, hname, hfail]
  | cons x xs ih =>
    intro hpre
    have hx := hpre x (List.mem_cons_self x xs)
    have hxs : ∀ y ∈ xs, repoOkB reg y = true := fun y hy =>
      hpre y (List.mem_cons_of_mem x hy)
    cases hrn : x.repository_name with
    | none =>
      simp [listAllLoop, hrn, ih hxs, repoRows, repoErrs]
    | some n =>
      simp only [repoOkB, hrn] at hx
      cases hcall : list_images_in_repository reg n with
      | error err =>
        simp [hcall] at hx
      | ok rows =>
        simp [listAllLoop, hrn, hcall, ih hxs, repoRows, repoErrs]

/-- C7: in all-repositories mode, a failing image-listing call for one
repository aborts the whole run with a diagnostic and a non-zero exit: the
output holds the header and exactly the rows of the repositories processed
before the failure, and nothing of the repositories after it. -/
theorem C7_all_mode_abort (reg : Registry) (args : List String)
    (pre post : List Repository) (r : Repository) (name e : String)
    (hv : args.contains "--version" = false)
    (ha : args.contains "--all" = true)
    (hrepos : reg.describe_repositories = .ok (pre ++ r :: post))
    (hpre : ∀ x ∈ pre, repoOkB reg x = true)
    (hname : r.repository_name = some name)
    (hfail : reg.describe_images name = .error e) :
    main reg args =
      { stdout := headerLine :: pre.flatMap (repoRows reg),
        stderr := pre.flatMap repoErrs ++
          ["Error listing images for repository " ++ name ++ ": " ++ e,
           "Error listing all repositories: " ++ e],
        exitOk := false } := by
  have hfail2 : list_images_in_repository reg name = .error e := by
    simp [list_images_in_repository, hfail]
  have hloop := listAllLoop_abort reg r name e post hname hfail2 pre hpre
  simp at hv ha
  simp [main, hv, ha, list_all_repositories, hrepos, hloop]

theorem C7_all_mode_abort_witness :
    main
      { describe_repositories := .ok
          [{ repository_name := some "good" },
           { repository_name := some "bad" },
           { repository_name := some "after" }],
        describe_images := fun n =>
          if n = "bad" then .error "boom"
          else .ok
            [{ artifact_media_type := some dockerMediaType,
               repository_name := some n,
               image_tags := some ["t"],
               image_digest := some "d",
               image_scan_findings_summary := none }] }
      ["prog", "--all"] =
      { stdout := [headerLine, "good;t;d;;;0;0;0;0;0;0"],
        stderr := ["Error listing images for repository bad: boom",
                   "Error listing all repositories: boom"],
        exitOk := false } := by
  have h := C7_all_mode_abort
    { describe_repositories := .ok
        [{ repository_name := some "good" },
         { repository_name := some "bad" },
         { repository_name := some "after" }],
      describe_images := fun n =>
        if n = "bad" then .error "boom"
        else .ok
          [{ artifact_media_type := some dockerMediaType,
             repository_name := some n,
             image_tags := some ["t"],
             image_digest := some "d",
             image_scan_findings_summary := none }] }
    ["prog", "--all"]
    [{ repository_name := some "good" }]
    [{ repository_name := some "after" }]
    { repository_name := some "bad" } "bad" "boom"
    rfl rfl rfl (by decide) rfl rfl
  exact h.trans (by decide)

end EcrScanDetail

namespace EcrScanDetail

/-- C8: invoking the program with no arguments (the argument vector holds
only the program name) prints the usage message naming the two required
alternatives on the error stream and exits with status zero, writing
neither the header nor any data row to standard output. -/
theorem C8_no_args_usage (reg : Registry) (prog : String)
    (h1 : prog ≠ "--version") (h2 : prog ≠ "--all") :
    main reg [prog] =
      { stdout := [], stderr := [usageLine prog], exitOk := true } := by
  have hv : Bool.not (([prog] : List String).contains "--version") = true := by
    simp [h1.symm]
  have ha : Bool.not (([prog] : List String).contains "--all") = true := by
    simp [h2.symm]
  simp at hv ha
  simp [main, hv, ha, usageLine]

theorem C8_no_args_usage_witness :
    main
      { describe_repositories := .error "E",
        describe_images := fun _ => .error "E" } ["prog"] =
      { stdout := [],
        stderr := ["Usage: prog [--all | <repository_name> | --version]"],
        exitOk := true } := by
  have h := C8_no_args_usage
    { describe_repositories := .error "E",
      describe_images := fun _ => .error "E" } "prog"
    (by decide) (by decide)
  exact h.trans (by decide)

/-- C9 fails on the code as universally stated: a `--version` run (like a
no-argument run, see C8) writes nothing at all to standard output, so the
header line is emitted zero times in that run, not once. -/
theorem C9_counterexample :
    (main { describe_repositories := .ok [], describe_images := fun _ => .ok [] }
        ["prog", "--version"]).stdout = [] ∧
    ((main { describe_repositories := .ok [], describe_images := fun _ => .ok [] }
        ["prog", "--version"]).stdout.count headerLine) = 0 :=
  ⟨rfl, rfl⟩

/-- Every standard-output line the repository loop of
`list_all_repositories` produces is a data row, i.e. the `formatRow` output
of some image description. -/
theorem listAllLoop_rows (reg : Registry) (rs : List Repository) :
    ∀ row ∈ (listAllLoop reg rs).1, ∃ d, formatRow d = some row := by
  induction rs with
  | nil =>
    intro row hrow
    simp [listAllLoop] at hrow
  | cons x xs ih =>
    intro row hrow
    cases hrn : x.repository_name with
    | none =>
      simp only [listAllLoop, hrn] at hrow
      exact ih row hrow
    | some n =>
      cases hdi : reg.describe_images n with
      | error e =>
        simp [listAllLoop, hrn, list_images_in_repository, hdi] at hrow
      | ok dets =>
        simp [listAllLoop, hrn, list_images_in_repository, hdi,
          List.mem_append, List.mem_filterMap] at hrow
        rcases hrow with ⟨d, _, hd⟩ | h
        · exact ⟨d, hd⟩
        · exact ih row h

/-- C9, amended: in every run that reaches report generation — the
arguments contain no `--version`, and either contain `--all` or supply a
first argument — the header line is emitted exactly once, as the first line
of standard output, and every later stdout line is a data row produced by
`formatRow` from some image description.  Version-mode and usage runs emit
no header at all (see the counterexample and C8). -/
theorem C9_amended_header_once (reg : Registry) (args : List String)
    (hv : args.contains "--version" = false)
    (hmode : args.contains "--all" = true ∨ 2 ≤ args.length) :
    ∃ dataRows, (main reg args).stdout = headerLine :: dataRows ∧
      ∀ row ∈ dataRows, ∃ d, formatRow d = some row := by
  simp at hv
  cases ha : args.contains "--all" with
  | true =>
    simp at ha
    cases hrepos : reg.describe_repositories with
    | error e =>
      refine ⟨[], ?_, by simp⟩
      simp [main, hv, ha, list_all_repositories, hrepos]
    | ok repos =>
      refine ⟨(listAllLoop reg repos).1, ?_, listAllLoop_rows reg repos⟩
      cases hres : (listAllLoop reg repos).2.2 with
      | ok u =>
        simp [main, hv, ha, list_all_repositories, hrepos, hres]
      | error e =>
        simp [main, hv, ha, list_all_repositories, hrepos, hres]
  | false =>
    rcases hmode with hall | hlen
    · rw [ha] at hall
      exact absurd hall (by simp)
    · simp at ha
      have hlt : ¬ (args.length < 2) := Nat.not_lt.mpr hlen
      cases hdi : reg.describe_images (args[1]?.getD "") with
      | error e =>
        refine ⟨[], ?_, by simp⟩
        simp [main, hv, ha, hlt, list_images_in_repository, hdi]
      | ok dets =>
        refine ⟨dets.filterMap formatRow, ?_, ?_⟩
        · simp [main, hv, ha, hlt, list_images_in_repository, hdi]
        · intro row h
          rcases List.mem_filterMap.mp h with ⟨d, _, hd⟩
          exact ⟨d, hd⟩

theorem C9_amended_header_once_witness :
    ∃ dataRows,
      (main
        { describe_repositories := .ok [],
          describe_images := fun _ => .ok [] } ["prog", "--all"]).stdout =
        headerLine :: dataRows ∧
      ∀ row ∈ dataRows, ∃ d, formatRow d = some row :=
  C9_amended_header_once
    { describe_repositories := .ok [], describe_images := fun _ => .ok [] }
    ["prog", "--all"] rfl (Or.inl rfl)

/-- C10: whenever `--version` appears anywhere among the arguments, the
program prints the version line to the error stream and exits with status
zero, before any other argument handling: the outcome names no header and
no data row, and is the same for every registry, so `--version` takes
precedence over `--all` and over any repository name. -/
theorem C10_version_anywhere (reg : Registry) (args : List String)
    (hv : args.contains "--version" = true) :
    main reg args =
      { stdout := [], stderr := [versionLine (args.headD "")], exitOk := true } := by
  simp at hv
  simp [main, hv]

theorem C10_version_anywhere_witness :
    main
      { describe_repositories := .error "E",
        describe_images := fun _ => .error "E" }
      ["prog", "--all", "--version"] =
      { stdout := [], stderr := ["prog version vunknown"], exitOk := true } := by
  have h := C10_version_anywhere
    { describe_repositories := .error "E",
      describe_images := fun _ => .error "E" }
    ["prog", "--all", "--version"] rfl
  exact h.trans (by decide)

end EcrScanDetail
